import Mathlib

/-!
Shallow embedding, in Lean 4, of the queue/pipeline orchestration layer of
the `target-ai-consumer` repository: the MySQL-backed two-stage job queue
(`src/interfaces/queue/mysql.py` and `src/interfaces/queue/__init__.py`),
the severity bucketing of `src/core/processing/segmentation.py`, and the
ingestion entry point `src/enqueue_report.py`.

Modelling conventions:
- the three SQL tables `PROCESSING_QUEUE`, `VALIDATION_QUEUE` and `BUFFER`
  are lists of row records kept in insertion order, with `AUTO_INCREMENT`
  ids modelled by explicit `next_…_id` counters;
- `SELECT … ORDER BY ID ASC LIMIT 1` is `oldestBy` (least id);
  `DELETE … WHERE ID = x` keeps the rows whose id differs from `x`;
  `INSERT … SELECT … WHERE ID = x` copies every row whose id equals `x`;
- Python `None` is `Option.none`; a Python function that can raise returns
  `Except String`; stateful methods take and return the table state, and a
  method that raises after having committed writes returns the partially
  updated state together with the error, mirroring what is durable in MySQL
  at the moment the exception propagates;
- Python `float` is modelled as `ℚ` (the severity thresholds 0.001, 0.05,
  0.1, 0.15 are exactly representable, so the comparison structure is
  preserved);
- `bytes` is `List Nat`.
-/

namespace TargetAI

/-- `ProcessingModelType` enum from `src/models/processing/__init__.py`. -/
inductive ProcessingModelType : Type
  | CLASSIFICATION : ProcessingModelType
  | SEGMENTATION : ProcessingModelType
deriving DecidableEq, Repr

/-- `QueueElement` dataclass from `src/interfaces/queue/__init__.py`.
`model_id`, `report_id` and `generate_mask` are `Option`s because the
corresponding columns (`VALIDATION_MODEL_ID`, the report ids,
`GENERATE_MASK`) are nullable and Python's dataclass does not enforce the
annotations at runtime; the dataclass default `generate_mask = False` is
`some false`. -/
structure QueueElement : Type where
  id : Nat
  model_id : Option Int
  report_id : Option Int
  report_type : ProcessingModelType
  image : List Nat
  generate_mask : Option Bool := some false
deriving DecidableEq, Repr

/-- One row of the `PROCESSING_QUEUE` table. -/
structure PRow : Type where
  id : Nat
  image_id : Int
  model_id : Int
  classification_report_id : Option Int
  segmentation_report_id : Option Int
  image : List Nat
  generate_mask : Option Bool
deriving DecidableEq, Repr

/-- One row of the `VALIDATION_QUEUE` table (it additionally has the
nullable `VALIDATION_MODEL_ID` column). -/
structure VRow : Type where
  id : Nat
  image_id : Int
  validation_model_id : Option Int
  model_id : Int
  classification_report_id : Option Int
  segmentation_report_id : Option Int
  image : List Nat
  generate_mask : Option Bool
deriving DecidableEq, Repr

/-- One row of the `BUFFER` table (same columns as `PROCESSING_QUEUE`, but
the `ID` is copied from the validation-queue row rather than generated). -/
structure BRow : Type where
  id : Nat
  image_id : Int
  model_id : Int
  classification_report_id : Option Int
  segmentation_report_id : Option Int
  image : List Nat
  generate_mask : Option Bool
deriving DecidableEq, Repr

/-- The state of the three queue tables owned by `MySQLQueue`
(`src/interfaces/queue/mysql.py`). -/
structure MySQLQueueState : Type where
  processing_queue : List PRow
  validation_queue : List VRow
  buffer : List BRow
  next_processing_id : Nat
  next_validation_id : Nat
deriving DecidableEq, Repr

/-- `SELECT … ORDER BY ID ASC LIMIT 1`: the first row attaining the least
key. -/
def oldestBy {α : Type} (f : α → Nat) : List α → Option α
  | [] => none
  | r :: rs =>
    match oldestBy f rs with
    | none => some r
    | some r2 => if f r ≤ f r2 then some r else some r2

/-- `Queue.process_report_id` (static method,
`src/interfaces/queue/__init__.py` lines 238-269).  The Python `match` is
translated case by case, in order; the first Python case
`(classification_report_id, None)` is a capture pattern, so it matches
every pair whose second component is `None`.  The Python source's third
case `(None, None)` (raising `ValueError("No report ID found")`) is
shadowed by the first case; Lean rejects the redundant alternative
outright, so it is omitted here, and its unreachability is the subject of
claim C9. -/
def process_report_id (classification_report_id : Option Int)
    (segmentation_report_id : Option Int) :
    Except String (Option Int × ProcessingModelType) :=
  match classification_report_id, segmentation_report_id with
  | c, none => Except.ok (c, ProcessingModelType.CLASSIFICATION)
  | none, s => Except.ok (s, ProcessingModelType.SEGMENTATION)
  | _, _ => Except.error "Multiple report IDs found"

/-- `Segmentation._ratio_to_severity`
(`src/core/processing/segmentation.py` lines 40-64), with the Python float
comparisons carried out in `ℚ`. -/
def ratio_to_severity (r : ℚ) : Int :=
  if r < 0.001 then 0
  else if 0.001 ≤ r ∧ r ≤ 0.05 then 1
  else if 0.05 < r ∧ r ≤ 0.1 then 2
  else if 0.1 < r ∧ r ≤ 0.15 then 3
  else if r > 0.15 then 4
  else -1

/-- The five-bucket step function exactly as the spec words it (§4.2):
ratio < 0.001 → 0; [0.001, 0.05] → 1; (0.05, 0.1] → 2; (0.1, 0.15] → 3;
> 0.15 → 4. -/
def severity_spec (r : ℚ) : Int :=
  if r < 0.001 then 0
  else if 0.001 ≤ r ∧ r ≤ 0.05 then 1
  else if 0.05 < r ∧ r ≤ 0.1 then 2
  else if 0.1 < r ∧ r ≤ 0.15 then 3
  else 4

/-- `MySQLQueue._enqueue_to_processing_queue`
(`src/interfaces/queue/mysql.py` lines 33-68).  Faithful to the source: the
`INSERT` statement there names the `VALIDATION_QUEUE` table (with no
`VALIDATION_MODEL_ID`, so that column is NULL), not `PROCESSING_QUEUE`. -/
def enqueue_to_processing_queue_inner (st : MySQLQueueState) (image_id : Int)
    (model_id : Int) (model_type : ProcessingModelType) (report_id : Int)
    (image : List Nat) (generate_mask : Option Bool) : MySQLQueueState :=
  let ids : Option Int × Option Int :=
    match model_type with
    | ProcessingModelType.CLASSIFICATION => (some report_id, none)
    | ProcessingModelType.SEGMENTATION => (none, some report_id)
  { st with
    validation_queue := st.validation_queue ++
      [{ id := st.next_validation_id, image_id := image_id,
         validation_model_id := none, model_id := model_id,
         classification_report_id := ids.1, segmentation_report_id := ids.2,
         image := image, generate_mask := generate_mask }],
    next_validation_id := st.next_validation_id + 1 }

/-- Template method `Queue.enqueue_to_processing_queue`
(`src/interfaces/queue/__init__.py` lines 34-69): guards the missing
`generate_mask` for segmentation models, then delegates. -/
def enqueue_to_processing_queue (st : MySQLQueueState) (image_id : Int)
    (model_id : Int) (model_type : ProcessingModelType) (report_id : Int)
    (image : List Nat) (generate_mask : Option Bool) :
    Except String MySQLQueueState :=
  if model_type = ProcessingModelType.SEGMENTATION ∧ generate_mask = none then
    Except.error "generate_mask must be provided for segmentation models"
  else
    Except.ok (enqueue_to_processing_queue_inner st image_id model_id
      model_type report_id image generate_mask)

/-- `MySQLQueue._enqueue_to_validation_queue`
(`src/interfaces/queue/mysql.py` lines 115-152). -/
def enqueue_to_validation_queue_inner (st : MySQLQueueState) (image_id : Int)
    (validation_model_id : Int) (model_id : Int)
    (model_type : ProcessingModelType) (report_id : Int) (image : List Nat)
    (generate_mask : Option Bool) : MySQLQueueState :=
  let ids : Option Int × Option Int :=
    match model_type with
    | ProcessingModelType.CLASSIFICATION => (some report_id, none)
    | ProcessingModelType.SEGMENTATION => (none, some report_id)
  { st with
    validation_queue := st.validation_queue ++
      [{ id := st.next_validation_id, image_id := image_id,
         validation_model_id := some validation_model_id,
         model_id := model_id,
         classification_report_id := ids.1, segmentation_report_id := ids.2,
         image := image, generate_mask := generate_mask }],
    next_validation_id := st.next_validation_id + 1 }

/-- Template method `Queue.enqueue_to_validation_queue`
(`src/interfaces/queue/__init__.py` lines 122-169). -/
def enqueue_to_validation_queue (st : MySQLQueueState) (image_id : Int)
    (validation_model_id : Int) (processing_model_id : Int)
    (processing_model_type : ProcessingModelType) (report_id : Int)
    (image : List Nat) (generate_mask : Option Bool) :
    Except String MySQLQueueState :=
  if processing_model_type = ProcessingModelType.SEGMENTATION ∧
      generate_mask = none then
    Except.error "generate_mask must be provided for segmentation models"
  else
    Except.ok (enqueue_to_validation_queue_inner st image_id
      validation_model_id processing_model_id processing_model_type
      report_id image generate_mask)

/-- `MySQLQueue.dequeue_from_processing_queue`
(`src/interfaces/queue/mysql.py` lines 70-106).  The row is deleted and
committed before `process_report_id` runs, so on a `process_report_id`
error the returned state already lacks the row. -/
def dequeue_from_processing_queue (st : MySQLQueueState) :
    Except String (Option QueueElement) × MySQLQueueState :=
  match oldestBy PRow.id st.processing_queue with
  | none => (Except.ok none, st)
  | some row =>
    let st' := { st with
      processing_queue := st.processing_queue.filter
        (fun r => r.id ≠ row.id) }
    match process_report_id row.classification_report_id
        row.segmentation_report_id with
    | Except.error e => (Except.error e, st')
    | Except.ok (report_id, report_type) =>
      (Except.ok (some
        { id := row.id, model_id := some row.model_id,
          report_id := report_id, report_type := report_type,
          image := row.image, generate_mask := row.generate_mask }), st')

/-- `MySQLQueue.processing_queue_has_elements`
(`src/interfaces/queue/mysql.py` lines 108-113). -/
def processing_queue_has_elements (st : MySQLQueueState) : Bool :=
  st.processing_queue.length > 0

/-- The `INSERT INTO BUFFER … SELECT … FROM VALIDATION_QUEUE WHERE ID = x`
row copy of `dequeue_from_validation_queue`: the buffer row keeps the
validation-queue row's id, processing model id and mask flag. -/
def vrowToBRow (r : VRow) : BRow :=
  { id := r.id, image_id := r.image_id, model_id := r.model_id,
    classification_report_id := r.classification_report_id,
    segmentation_report_id := r.segmentation_report_id,
    image := r.image, generate_mask := r.generate_mask }

/-- `MySQLQueue.dequeue_from_validation_queue`
(`src/interfaces/queue/mysql.py` lines 154-192).  Under one lock it copies
the oldest row into `BUFFER`, deletes it from `VALIDATION_QUEUE`, and
builds the returned element from the columns the `SELECT` read: `ID`,
`VALIDATION_MODEL_ID`, the two report ids and `IMAGE` — `GENERATE_MASK` is
not read, so the `QueueElement` keeps its dataclass default. -/
def dequeue_from_validation_queue (st : MySQLQueueState) :
    Except String (Option QueueElement) × MySQLQueueState :=
  match oldestBy VRow.id st.validation_queue with
  | none => (Except.ok none, st)
  | some row =>
    let st' := { st with
      buffer := st.buffer ++
        ((st.validation_queue.filter (fun r => r.id = row.id)).map vrowToBRow),
      validation_queue := st.validation_queue.filter
        (fun r => r.id ≠ row.id) }
    match process_report_id row.classification_report_id
        row.segmentation_report_id with
    | Except.error e => (Except.error e, st')
    | Except.ok (report_id, report_type) =>
      (Except.ok (some
        { id := row.id, model_id := row.validation_model_id,
          report_id := report_id, report_type := report_type,
          image := row.image }), st')

/-- The `INSERT INTO PROCESSING_QUEUE … SELECT … FROM BUFFER WHERE ID = x`
of `update_buffer`: each copied row gets a fresh auto-increment id; the
payload columns are copied verbatim. -/
def insertRowsFromBuffer (pq : List PRow) (nid : Nat) :
    List BRow → List PRow × Nat
  | [] => (pq, nid)
  | b :: bs =>
    insertRowsFromBuffer
      (pq ++ [{ id := nid, image_id := b.image_id, model_id := b.model_id,
                classification_report_id := b.classification_report_id,
                segmentation_report_id := b.segmentation_report_id,
                image := b.image, generate_mask := b.generate_mask }])
      (nid + 1) bs

/-- `MySQLQueue.update_buffer` (`src/interfaces/queue/mysql.py` lines
194-210): on a positive validation result, copy the buffered row(s) with
the given id into the processing queue; in both cases delete them from the
buffer. -/
def update_buffer (st : MySQLQueueState) (element_id : Nat)
    (validation_result : Bool) : MySQLQueueState :=
  let st1 :=
    if validation_result then
      let pq := insertRowsFromBuffer st.processing_queue
        st.next_processing_id
        (st.buffer.filter (fun b => b.id = element_id))
      { st with processing_queue := pq.1, next_processing_id := pq.2 }
    else st
  { st1 with buffer := st1.buffer.filter (fun b => b.id ≠ element_id) }

/-- `MySQLQueue.validation_queue_has_elements`
(`src/interfaces/queue/mysql.py` lines 212-217). -/
def validation_queue_has_elements (st : MySQLQueueState) : Bool :=
  st.validation_queue.length > 0

/-- One row of the `IMAGE` table of the database
(`MySQLDatabase.insert_image`, `src/interfaces/database/mysql.py`). -/
structure ImageRow : Type where
  id : Nat
  user_id : Int
  filename : String
deriving DecidableEq, Repr

/-- One row of the `CLASSIFICATION_REPORT` table
(`MySQLDatabase.insert_classification_report`). -/
structure ClassificationReportRow : Type where
  id : Nat
  user_id : Int
  image_id : Nat
  model_id : Int
deriving DecidableEq, Repr

/-- One row of the `SEGMENTATION_REPORT` table
(`MySQLDatabase.insert_segmentation_report`). -/
structure SegmentationReportRow : Type where
  id : Nat
  user_id : Int
  image_id : Nat
  model_id : Int
  has_mask : Bool
deriving DecidableEq, Repr

/-- The state visible to the ingestion entry point `enqueue_report`
(`src/enqueue_report.py`): the database's model registry
(`enabled_models`, keyed by model id, of which we keep the `type` field
that `enqueue_report` reads), the image and report tables, the blob
storage's `IMAGE` table (`MySQLStorage.store_image`), and the queue
tables. -/
structure AppState : Type where
  enabled_models : List (Int × ProcessingModelType)
  images : List ImageRow
  next_image_id : Nat
  classification_reports : List ClassificationReportRow
  next_classification_report_id : Nat
  segmentation_reports : List SegmentationReportRow
  next_segmentation_report_id : Nat
  stored_images : List (Nat × List Nat)
  queue : MySQLQueueState
deriving DecidableEq, Repr

/-- `database.enabled_models[model_id].type`: dictionary lookup of the
registered type for a model id (raises `KeyError` when absent). -/
def lookupModelType (models : List (Int × ProcessingModelType))
    (model_id : Int) : Option ProcessingModelType :=
  (models.find? (fun m => m.1 = model_id)).map (fun m => m.2)

/-- `enqueue_report` (`src/enqueue_report.py` lines 51-135), with the
state threaded explicitly.  The write order of the source is kept: the
model-type check happens before any write, but the
`generate_mask`/classification check happens only after
`database.insert_image` and `storage.store_image` have committed, so on
that error the returned state already holds the new image row and blob. -/
def enqueue_report (app : AppState) (user_id : Int) (filename : String)
    (image : List Nat) (processing_model_id : Int)
    (processing_model_type : ProcessingModelType) (generate_mask : Bool)
    (validation_model_id : Option Int) : Except String Nat × AppState :=
  match lookupModelType app.enabled_models processing_model_id with
  | none => (Except.error "KeyError", app)
  | some registered_type =>
    if processing_model_type ≠ registered_type then
      (Except.error "Model type mismatch", app)
    else
      let image_id := app.next_image_id
      let app1 := { app with
        images := app.images ++ [⟨image_id, user_id, filename⟩],
        next_image_id := image_id + 1,
        stored_images := app.stored_images ++ [(image_id, image)] }
      let step2 : Except String (Nat × AppState) :=
        match processing_model_type with
        | ProcessingModelType.CLASSIFICATION =>
          if generate_mask then
            Except.error "Classification models do not generate masks"
          else
            let report_id := app1.next_classification_report_id
            Except.ok (report_id, { app1 with
              classification_reports := app1.classification_reports ++
                [⟨report_id, user_id, image_id, processing_model_id⟩],
              next_classification_report_id := report_id + 1 })
        | ProcessingModelType.SEGMENTATION =>
          let report_id := app1.next_segmentation_report_id
          Except.ok (report_id, { app1 with
            segmentation_reports := app1.segmentation_reports ++
              [⟨report_id, user_id, image_id, processing_model_id,
                generate_mask⟩],
            next_segmentation_report_id := report_id + 1 })
      match step2 with
      | Except.error e => (Except.error e, app1)
      | Except.ok (report_id, app2) =>
        match validation_model_id with
        | none =>
          match enqueue_to_processing_queue app2.queue image_id
              processing_model_id processing_model_type report_id image
              (some generate_mask) with
          | Except.error e => (Except.error e, app2)
          | Except.ok qst => (Except.ok report_id, { app2 with queue := qst })
        | some vid =>
          match enqueue_to_validation_queue app2.queue image_id vid
              processing_model_id processing_model_type report_id image
              (some generate_mask) with
          | Except.error e => (Except.error e, app2)
          | Except.ok qst => (Except.ok report_id, { app2 with queue := qst })

/-- The `QueueElement` that `dequeue_from_processing_queue` builds from a
row whose `process_report_id` call succeeds (the `error` arm is a dummy:
on such a row the Python code would raise instead of returning). -/
def rowToElement (r : PRow) : QueueElement :=
  match process_report_id r.classification_report_id
      r.segmentation_report_id with
  | Except.ok (report_id, report_type) =>
    { id := r.id, model_id := some r.model_id, report_id := report_id,
      report_type := report_type, image := r.image,
      generate_mask := r.generate_mask }
  | Except.error _ =>
    { id := r.id, model_id := some r.model_id, report_id := none,
      report_type := ProcessingModelType.CLASSIFICATION, image := r.image,
      generate_mask := r.generate_mask }

/-- Repeatedly dequeue from the processing queue (the worker loop's view),
collecting the returned elements; the fuel bounds the number of polls. -/
def drainProcessing : Nat → MySQLQueueState → List QueueElement
  | 0, _ => []
  | Nat.succ n, st =>
    match dequeue_from_processing_queue st with
    | (Except.ok (some e), st') => e :: drainProcessing n st'
    | _ => []

/-- Queue state with all three tables empty (fresh database). -/
def emptyQueueState : MySQLQueueState :=
  { processing_queue := [], validation_queue := [], buffer := [],
    next_processing_id := 1, next_validation_id := 1 }

/-- Concrete processing-queue rows used to evaluate the theorems. -/
def prowW1 : PRow :=
  { id := 1, image_id := 11, model_id := 5,
    classification_report_id := some 21, segmentation_report_id := none,
    image := [0, 1], generate_mask := none }

def prowW2 : PRow :=
  { id := 2, image_id := 12, model_id := 6,
    classification_report_id := none, segmentation_report_id := some 22,
    image := [2, 3], generate_mask := some true }

/-- Concrete state with two jobs in the processing queue. -/
def pstW : MySQLQueueState :=
  { emptyQueueState with
    processing_queue := [prowW1, prowW2],
    next_processing_id := 3 }

/-- Concrete validation-queue row used to evaluate the theorems. -/
def vrowW : VRow :=
  { id := 4, image_id := 13, validation_model_id := some 9, model_id := 7,
    classification_report_id := none, segmentation_report_id := some 23,
    image := [4, 5], generate_mask := some true }

/-- Concrete state with one job in the validation queue. -/
def vstW : MySQLQueueState :=
  { emptyQueueState with
    validation_queue := [vrowW],
    next_validation_id := 5 }

/-- Concrete buffer row used to evaluate the theorems. -/
def browW : BRow :=
  { id := 4, image_id := 13, model_id := 7,
    classification_report_id := none, segmentation_report_id := some 23,
    image := [4, 5], generate_mask := some true }

/-- Concrete state with one job held in the buffer. -/
def bstW : MySQLQueueState :=
  { emptyQueueState with buffer := [browW], next_processing_id := 3 }

/-- Concrete ingestion state: model 5 is registered as a classification
model; every table is empty. -/
def app0W : AppState :=
  { enabled_models := [(5, ProcessingModelType.CLASSIFICATION)],
    images := [], next_image_id := 1,
    classification_reports := [], next_classification_report_id := 1,
    segmentation_reports := [], next_segmentation_report_id := 1,
    stored_images := [], queue := emptyQueueState }

/-! ### Helper lemmas about `oldestBy` and `List.filter` on id-sorted rows

`AUTO_INCREMENT` assigns strictly increasing ids in insertion order, so a
queue table, read as a list in insertion order, is strictly sorted on its
id column; these lemmas reduce the SQL fragments to head/tail operations
under that invariant. -/

theorem oldestBy_sorted_cons {α : Type} (f : α → Nat) :
    ∀ (x : α) (xs : List α),
      (x :: xs).Pairwise (fun a b => f a < f b) →
      oldestBy f (x :: xs) = some x
  | _, [], _ => rfl
  | x, y :: ys, h => by
    have hxy : f x < f y :=
      (List.pairwise_cons.mp h).1 y (List.mem_cons_self y ys)
    have ih := oldestBy_sorted_cons f y ys (List.pairwise_cons.mp h).2
    rw [oldestBy, ih]
    simp [le_of_lt hxy]

theorem oldestBy_nil_iff {α : Type} (f : α → Nat) (l : List α) :
    oldestBy f l = none ↔ l = [] := by
  cases l with
  | nil => simp [oldestBy]
  | cons x xs =>
    simp only [oldestBy]
    cases h : oldestBy f xs with
    | none => simp
    | some r2 => by_cases hle : f x ≤ f r2 <;> simp [hle]

theorem filter_ne_head {α : Type} (f : α → Nat) (x : α) (xs : List α)
    (h : (x :: xs).Pairwise (fun a b => f a < f b)) :
    (x :: xs).filter (fun r => f r ≠ f x) = xs := by
  have h1 : ∀ a ∈ xs, f x < f a := (List.pairwise_cons.mp h).1
  rw [List.filter_cons_of_neg (by simp)]
  exact List.filter_eq_self.mpr fun a ha => by
    simpa using Nat.ne_of_gt (h1 a ha)

theorem filter_eq_head {α : Type} (f : α → Nat) (x : α) (xs : List α)
    (h : (x :: xs).Pairwise (fun a b => f a < f b)) :
    (x :: xs).filter (fun r => f r = f x) = [x] := by
  have h1 : ∀ a ∈ xs, f x < f a := (List.pairwise_cons.mp h).1
  rw [List.filter_cons_of_pos (by simp)]
  have : xs.filter (fun r => f r = f x) = [] :=
    List.filter_eq_nil_iff.mpr fun a ha => by
      simpa using Nat.ne_of_gt (h1 a ha)
  rw [this]

theorem filter_eq_singleton_of_nodup {α : Type} (f : α → Nat) :
    ∀ (l : List α) (r : α), r ∈ l → (l.map f).Nodup →
      l.filter (fun x => f x = f r) = [r]
  | x :: xs, r, hmem, hnodup => by
    rw [List.map_cons, List.nodup_cons] at hnodup
    rcases List.mem_cons.mp hmem with hx | hxs
    · subst hx
      rw [List.filter_cons_of_pos (by simp)]
      have : xs.filter (fun x => f x = f r) = [] :=
        List.filter_eq_nil_iff.mpr fun a ha h => by
          exact hnodup.1 (by
            simpa using ⟨a, ha, (by simpa using h)⟩)
      rw [this]
    · have hne : f x ≠ f r := fun hfeq => hnodup.1 (by
        rw [hfeq]
        exact List.mem_map_of_mem f hxs)
      rw [List.filter_cons_of_neg (by simpa using hne)]
      exact filter_eq_singleton_of_nodup f xs r hxs hnodup.2

theorem filter_absent_eq_self {α : Type} (f : α → Nat) (l : List α) (n : Nat)
    (h : ∀ a ∈ l, f a ≠ n) : l.filter (fun x => f x ≠ n) = l :=
  List.filter_eq_self.mpr fun a ha => by simpa using h a ha

/-- With one of the two report ids NULL, `process_report_id` succeeds. -/
theorem process_report_id_ok (c s : Option Int)
    (h : c = none ∨ s = none) :
    ∃ p, process_report_id c s = Except.ok p := by
  rcases h with h | h
  · subst h
    cases s with
    | none => exact ⟨_, rfl⟩
    | some v => exact ⟨_, rfl⟩
  · subst h
    cases c with
    | none => exact ⟨_, rfl⟩
    | some v => exact ⟨_, rfl⟩

/-- `update_buffer` on an id that no buffer row carries touches nothing:
the `INSERT … SELECT` copies zero rows and the `DELETE` removes zero
rows. -/
theorem update_buffer_absent (st : MySQLQueueState) (element_id : Nat)
    (h : ∀ b ∈ st.buffer, b.id ≠ element_id) (v : Bool) :
    update_buffer st element_id v = st := by
  have hfe : st.buffer.filter (fun b => b.id = element_id) = [] :=
    List.filter_eq_nil_iff.mpr fun a ha => by simpa using h a ha
  have hfn : st.buffer.filter (fun b => b.id ≠ element_id) = st.buffer :=
    filter_absent_eq_self BRow.id st.buffer element_id h
  simp only [decide_not] at hfn
  cases v with
  | false => simp [update_buffer, hfn]
  | true => simp [update_buffer, hfe, hfn, insertRowsFromBuffer]

/-- After `update_buffer`, no buffer row carries the treated id. -/
theorem update_buffer_buffer_ne (st : MySQLQueueState) (element_id : Nat)
    (v : Bool) :
    ∀ b ∈ (update_buffer st element_id v).buffer, b.id ≠ element_id := by
  intro b hb
  cases v <;>
    simp only [update_buffer, if_true, if_false, List.mem_filter,
      decide_not, Bool.not_eq_eq_eq_not, Bool.not_true, decide_eq_false_iff_not] at hb <;>
    exact hb.2

/-- On a non-empty, id-sorted processing queue whose head has at most one
report id set, `dequeue_from_processing_queue` returns the head's element
and leaves the tail. -/
theorem dequeue_processing_cons (st : MySQLQueueState) (row : PRow)
    (rest : List PRow) (hq : st.processing_queue = row :: rest)
    (hsorted : (row :: rest).Pairwise (fun a b => a.id < b.id))
    (hwf : row.classification_report_id = none ∨
      row.segmentation_report_id = none) :
    dequeue_from_processing_queue st =
      (Except.ok (some (rowToElement row)),
        { st with processing_queue := rest }) := by
  obtain ⟨p, hp⟩ := process_report_id_ok _ _ hwf
  obtain ⟨rid, rty⟩ := p
  simp only [dequeue_from_processing_queue, hq,
    oldestBy_sorted_cons PRow.id row rest hsorted]
  rw [filter_ne_head PRow.id row rest hsorted, hp]
  simp [rowToElement, hp]

/-- Draining an id-sorted processing queue of well-formed rows returns the
whole queue, in queue order. -/
theorem drainProcessing_sorted :
    ∀ (l : List PRow) (st : MySQLQueueState), st.processing_queue = l →
      l.Pairwise (fun a b => a.id < b.id) →
      (∀ r ∈ l, r.classification_report_id = none ∨
        r.segmentation_report_id = none) →
      drainProcessing l.length st = l.map rowToElement
  | [], _, _, _, _ => by simp [drainProcessing]
  | row :: rest, st, hq, hs, hw => by
    have hd := dequeue_processing_cons st row rest hq hs
      (hw row (List.mem_cons_self row rest))
    have ih := drainProcessing_sorted rest
      { st with processing_queue := rest } rfl
      (List.pairwise_cons.mp hs).2
      (fun r hr => hw r (List.mem_cons_of_mem row hr))
    simp [drainProcessing, hd, ih]

/-! ### Claim theorems -/

/-- C4: `_ratio_to_severity` computes exactly the five-bucket step
function — ratio < 0.001 → 0, [0.001, 0.05] → 1, (0.05, 0.1] → 2,
(0.1, 0.15] → 3, > 0.15 → 4 — and the boundary values 0.001, 0.05, 0.1
and 0.15 map to severities 1, 1, 2 and 3 respectively. -/
theorem ratio_to_severity_matches_spec :
    (∀ r : ℚ, ratio_to_severity r = severity_spec r) ∧
    ratio_to_severity 0.001 = 1 ∧ ratio_to_severity 0.05 = 1 ∧
    ratio_to_severity 0.1 = 2 ∧ ratio_to_severity 0.15 = 3 := by
  refine ⟨fun r => ?_, by norm_num [ratio_to_severity],
    by norm_num [ratio_to_severity], by norm_num [ratio_to_severity],
    by norm_num [ratio_to_severity]⟩
  unfold ratio_to_severity severity_spec
  rcases lt_or_le r 0.001 with h1 | h1
  · rw [if_pos h1, if_pos h1]
  · rw [if_neg (not_lt.mpr h1), if_neg (not_lt.mpr h1)]
    rcases le_or_lt r 0.05 with h2 | h2
    · rw [if_pos ⟨h1, h2⟩, if_pos ⟨h1, h2⟩]
    · have h2' : ¬(0.001 ≤ r ∧ r ≤ 0.05) :=
        fun hc => absurd hc.2 (not_le.mpr h2)
      rw [if_neg h2', if_neg h2']
      rcases le_or_lt r 0.1 with h3 | h3
      · rw [if_pos ⟨h2, h3⟩, if_pos ⟨h2, h3⟩]
      · have h3' : ¬(0.05 < r ∧ r ≤ 0.1) :=
          fun hc => absurd hc.2 (not_le.mpr h3)
        rw [if_neg h3', if_neg h3']
        rcases le_or_lt r 0.15 with h4 | h4
        · rw [if_pos ⟨h3, h4⟩, if_pos ⟨h3, h4⟩]
        · have h4' : ¬(0.1 < r ∧ r ≤ 0.15) :=
            fun hc => absurd hc.2 (not_le.mpr h4)
          rw [if_neg h4', if_neg h4', if_pos h4]

/-- C9: `process_report_id` returns `(c, CLASSIFICATION)` whenever the
segmentation report id is `None` — in particular `(None, None)` yields
report id `None` with type `CLASSIFICATION` — so the
`"No report ID found"` branch is unreachable and the function never raises
on a `(None, None)` input. -/
theorem process_report_id_none_none_is_classification :
    (∀ c : Option Int, process_report_id c none =
      Except.ok (c, ProcessingModelType.CLASSIFICATION)) ∧
    process_report_id none none =
      Except.ok (none, ProcessingModelType.CLASSIFICATION) ∧
    (∀ c s : Option Int, (∃ p, process_report_id c s = Except.ok p) ∨
      process_report_id c s =
        Except.error "Multiple report IDs found") := by
  refine ⟨fun c => by cases c <;> rfl, rfl, fun c s => ?_⟩
  cases c <;> cases s
  · exact Or.inl ⟨_, rfl⟩
  · exact Or.inl ⟨_, rfl⟩
  · exact Or.inl ⟨_, rfl⟩
  · exact Or.inr rfl

/-- C8: enqueueing with processing model type SEGMENTATION and an absent
`generate_mask` fails with the `InvalidArgument` error on both the
processing-queue and the validation-queue template methods, and neither
call can produce a new queue state. -/
theorem enqueue_segmentation_without_mask_fails (st : MySQLQueueState)
    (image_id model_id validation_model_id report_id : Int)
    (image : List Nat) :
    enqueue_to_processing_queue st image_id model_id
        ProcessingModelType.SEGMENTATION report_id image none =
      Except.error "generate_mask must be provided for segmentation models" ∧
    enqueue_to_validation_queue st image_id validation_model_id model_id
        ProcessingModelType.SEGMENTATION report_id image none =
      Except.error "generate_mask must be provided for segmentation models" :=
  ⟨rfl, rfl⟩

/-- C1 (code bug): `_enqueue_to_processing_queue`'s `INSERT` statement
names the `VALIDATION_QUEUE` table, so the new row lands in the
validation queue (with NULL `VALIDATION_MODEL_ID`) and the processing
queue stays empty — the claimed side effect "appends one row to the
processing queue, and no other queue changes" fails on every call. -/
theorem enqueue_to_processing_queue_inserts_into_validation_queue :
    enqueue_to_processing_queue emptyQueueState 1 2
        ProcessingModelType.CLASSIFICATION 3 [7] none =
      Except.ok
        { processing_queue := [],
          validation_queue :=
            [{ id := 1, image_id := 1, validation_model_id := none,
               model_id := 2, classification_report_id := some 3,
               segmentation_report_id := none, image := [7],
               generate_mask := none }],
          buffer := [], next_processing_id := 1,
          next_validation_id := 2 } := by
  rfl

/-- C6 (code bug): `enqueue_report` rejects a declared/registered
model-type mismatch before any write, but the
`generate_mask`/classification violation raises only after
`database.insert_image` and `storage.store_image` have committed: at the
failing input the returned state already holds the new image row and the
stored blob. -/
theorem enqueue_report_mask_violation_after_image_write :
    enqueue_report app0W 10 "leaf.png" [1, 2] 5
        ProcessingModelType.SEGMENTATION false none =
      (Except.error "Model type mismatch", app0W) ∧
    (enqueue_report app0W 10 "leaf.png" [1, 2] 5
        ProcessingModelType.CLASSIFICATION true none).1 =
      Except.error "Classification models do not generate masks" ∧
    (enqueue_report app0W 10 "leaf.png" [1, 2] 5
        ProcessingModelType.CLASSIFICATION true none).2.images =
      [{ id := 1, user_id := 10, filename := "leaf.png" }] ∧
    (enqueue_report app0W 10 "leaf.png" [1, 2] 5
        ProcessingModelType.CLASSIFICATION true none).2.stored_images =
      [(1, [1, 2])] ∧
    app0W.images = [] ∧ app0W.stored_images = [] := by
  refine ⟨rfl, rfl, rfl, rfl, rfl, rfl⟩

/-- C2: `dequeue_from_validation_queue` on an empty validation queue
returns empty and changes nothing; on a non-empty queue it moves the
oldest job into the buffer as one step — afterwards the job is in the
buffer exactly once, is no longer in the validation queue, and the
processing queue is untouched: the job is in exactly one of the two
stores, never both, never neither. -/
theorem dequeue_validation_moves_job_to_buffer (st : MySQLQueueState)
    (hsorted : st.validation_queue.Pairwise (fun a b => a.id < b.id))
    (hfresh : ∀ b ∈ st.buffer, b.id ∉ st.validation_queue.map VRow.id) :
    (st.validation_queue = [] →
      dequeue_from_validation_queue st = (Except.ok none, st)) ∧
    (∀ row rest, st.validation_queue = row :: rest →
      (dequeue_from_validation_queue st).2.buffer.filter
          (fun b => b.id = row.id) = [vrowToBRow row] ∧
      (∀ r ∈ (dequeue_from_validation_queue st).2.validation_queue,
        r.id ≠ row.id) ∧
      (dequeue_from_validation_queue st).2.validation_queue = rest ∧
      (dequeue_from_validation_queue st).2.processing_queue =
        st.processing_queue) := by
  constructor
  · intro hq
    simp [dequeue_from_validation_queue, hq, oldestBy]
  · intro row rest hq
    rw [hq] at hsorted hfresh
    have hst2 : (dequeue_from_validation_queue st).2 =
        { st with
          buffer := st.buffer ++ [vrowToBRow row],
          validation_queue := rest } := by
      simp only [dequeue_from_validation_queue, hq,
        oldestBy_sorted_cons VRow.id row rest hsorted]
      rw [filter_eq_head VRow.id row rest hsorted,
        filter_ne_head VRow.id row rest hsorted]
      cases hpr : process_report_id row.classification_report_id
          row.segmentation_report_id with
      | ok p => obtain ⟨rid, rty⟩ := p; simp
      | error e => simp
    refine ⟨?_, ?_, by rw [hst2], by rw [hst2]⟩
    · rw [hst2]
      have h1 : st.buffer.filter (fun b => b.id = row.id) = [] :=
        List.filter_eq_nil_iff.mpr fun b hb => by
          simp only [decide_eq_true_eq]
          intro hbid
          exact hfresh b hb (hbid.symm ▸ List.mem_map_of_mem VRow.id
            (List.mem_cons_self row rest))
      rw [List.filter_append, h1]
      simp [vrowToBRow]
    · rw [hst2]
      intro r hr
      exact Nat.ne_of_gt ((List.pairwise_cons.mp hsorted).1 r hr)

theorem dequeue_validation_moves_job_to_buffer_witness :
    (dequeue_from_validation_queue vstW).2.buffer.filter
        (fun b => b.id = vrowW.id) = [vrowToBRow vrowW] :=
  ((dequeue_validation_moves_job_to_buffer vstW (by decide) (by decide)).2
    vrowW [] rfl).1

/-- C3: for a buffered id, `update_buffer(id, true)` appends exactly one
element to the processing queue, preserving the buffered row's model id,
report id, image and mask flag, and removes the buffer entry;
`update_buffer(id, false)` removes the entry and appends nothing; in
neither case does a row with the id stay buffered afterwards. -/
theorem update_buffer_promotes_or_drops (st : MySQLQueueState) (b : BRow)
    (hmem : b ∈ st.buffer) (hnodup : (st.buffer.map BRow.id).Nodup) :
    (update_buffer st b.id true).processing_queue =
      st.processing_queue ++
        [{ id := st.next_processing_id, image_id := b.image_id,
           model_id := b.model_id,
           classification_report_id := b.classification_report_id,
           segmentation_report_id := b.segmentation_report_id,
           image := b.image, generate_mask := b.generate_mask }] ∧
    (update_buffer st b.id true).buffer =
      st.buffer.filter (fun x => x.id ≠ b.id) ∧
    (∀ x ∈ (update_buffer st b.id true).buffer, x.id ≠ b.id) ∧
    (update_buffer st b.id false).processing_queue =
      st.processing_queue ∧
    (update_buffer st b.id false).buffer =
      st.buffer.filter (fun x => x.id ≠ b.id) ∧
    (∀ x ∈ (update_buffer st b.id false).buffer, x.id ≠ b.id) := by
  have hfil : st.buffer.filter (fun x => x.id = b.id) = [b] :=
    filter_eq_singleton_of_nodup BRow.id st.buffer b hmem hnodup
  refine ⟨?_, ?_, update_buffer_buffer_ne st b.id true, ?_, ?_,
    update_buffer_buffer_ne st b.id false⟩
  · simp [update_buffer, hfil, insertRowsFromBuffer]
  · simp [update_buffer]
  · simp [update_buffer]
  · simp [update_buffer]

theorem update_buffer_promotes_or_drops_witness :
    (update_buffer bstW browW.id true).processing_queue =
      bstW.processing_queue ++
        [{ id := bstW.next_processing_id, image_id := browW.image_id,
           model_id := browW.model_id,
           classification_report_id := browW.classification_report_id,
           segmentation_report_id := browW.segmentation_report_id,
           image := browW.image, generate_mask := browW.generate_mask }] :=
  (update_buffer_promotes_or_drops bstW browW (by decide) (by decide)).1

/-- C5: dequeueing from an id-sorted processing queue returns and removes
the head — the row with the least id, i.e. the oldest by insertion
order — so repeatedly dequeueing yields the jobs in exactly queue
(enqueue) order; on an empty queue it returns empty and leaves the state
unchanged. -/
theorem dequeue_processing_fifo (st : MySQLQueueState)
    (hsorted : st.processing_queue.Pairwise (fun a b => a.id < b.id))
    (hwf : ∀ r ∈ st.processing_queue,
      r.classification_report_id = none ∨
        r.segmentation_report_id = none) :
    (st.processing_queue = [] →
      dequeue_from_processing_queue st = (Except.ok none, st)) ∧
    (∀ row rest, st.processing_queue = row :: rest →
      (∀ r ∈ st.processing_queue, row.id ≤ r.id) ∧
      dequeue_from_processing_queue st =
        (Except.ok (some (rowToElement row)),
          { st with processing_queue := rest })) ∧
    drainProcessing st.processing_queue.length st =
      st.processing_queue.map rowToElement := by
  refine ⟨fun hq => ?_, fun row rest hq => ?_,
    drainProcessing_sorted st.processing_queue st rfl hsorted hwf⟩
  · simp [dequeue_from_processing_queue, hq, oldestBy]
  · rw [hq] at hsorted hwf
    refine ⟨?_, dequeue_processing_cons st row rest hq hsorted
      (hwf row (List.mem_cons_self row rest))⟩
    rw [hq]
    intro r hr
    rcases List.mem_cons.mp hr with h | h
    · subst h; exact le_refl _
    · exact le_of_lt ((List.pairwise_cons.mp hsorted).1 r h)

theorem dequeue_processing_fifo_witness :
    drainProcessing pstW.processing_queue.length pstW =
      pstW.processing_queue.map rowToElement :=
  (dequeue_processing_fifo pstW (by decide) (by decide)).2.2

/-- C7: applying a validation result to an id absent from the buffer is a
no-op success for both outcomes, and applying the same result twice
leaves the same final state as applying it once. -/
theorem update_buffer_cleared_id_noop (st : MySQLQueueState)
    (element_id : Nat)
    (habsent : ∀ b ∈ st.buffer, b.id ≠ element_id) :
    update_buffer st element_id true = st ∧
    update_buffer st element_id false = st ∧
    (∀ (st0 : MySQLQueueState) (v : Bool),
      update_buffer (update_buffer st0 element_id v) element_id v =
        update_buffer st0 element_id v) := by
  refine ⟨update_buffer_absent st element_id habsent true,
    update_buffer_absent st element_id habsent false, fun st0 v => ?_⟩
  exact update_buffer_absent _ element_id
    (update_buffer_buffer_ne st0 element_id v) v

theorem update_buffer_cleared_id_noop_witness :
    update_buffer bstW 9 true = bstW ∧ update_buffer bstW 9 false = bstW :=
  ⟨(update_buffer_cleared_id_noop bstW 9 (by decide)).1,
    (update_buffer_cleared_id_noop bstW 9 (by decide)).2.1⟩

/-- C10: a non-empty validation dequeue returns the element whose
`model_id` is the stored `VALIDATION_MODEL_ID` (not the processing model
id) and whose `generate_mask` is the dataclass default `False` (the
`SELECT` does not read `GENERATE_MASK`), while the buffer row copied
alongside keeps the processing `MODEL_ID` and the stored mask flag. -/
theorem dequeue_validation_element_uses_validation_model
    (st : MySQLQueueState) (row : VRow) (rest : List VRow)
    (hq : st.validation_queue = row :: rest)
    (hsorted : st.validation_queue.Pairwise (fun a b => a.id < b.id))
    (hwf : row.classification_report_id = none ∨
      row.segmentation_report_id = none) :
    ∃ e : QueueElement,
      (dequeue_from_validation_queue st).1 = Except.ok (some e) ∧
      e.model_id = row.validation_model_id ∧
      e.generate_mask = some false ∧
      vrowToBRow row ∈ (dequeue_from_validation_queue st).2.buffer ∧
      (vrowToBRow row).model_id = row.model_id ∧
      (vrowToBRow row).generate_mask = row.generate_mask := by
  rw [hq] at hsorted
  obtain ⟨p, hp⟩ := process_report_id_ok _ _ hwf
  obtain ⟨rid, rty⟩ := p
  refine ⟨{ id := row.id, model_id := row.validation_model_id,
            report_id := rid, report_type := rty, image := row.image },
    ?_, rfl, rfl, ?_, rfl, rfl⟩
  · simp only [dequeue_from_validation_queue, hq,
      oldestBy_sorted_cons VRow.id row rest hsorted, hp]
  · simp only [dequeue_from_validation_queue, hq,
      oldestBy_sorted_cons VRow.id row rest hsorted, hp]
    rw [filter_eq_head VRow.id row rest hsorted]
    simp

theorem dequeue_validation_element_uses_validation_model_witness :
    ∃ e : QueueElement,
      (dequeue_from_validation_queue vstW).1 = Except.ok (some e) ∧
      e.model_id = vrowW.validation_model_id ∧
      e.generate_mask = some false ∧
      vrowToBRow vrowW ∈ (dequeue_from_validation_queue vstW).2.buffer ∧
      (vrowToBRow vrowW).model_id = vrowW.model_id ∧
      (vrowToBRow vrowW).generate_mask = vrowW.generate_mask :=
  dequeue_validation_element_uses_validation_model vstW vrowW [] rfl
    (by decide) (by decide)

end TargetAI
